import Mathlib

/-!
Verification development for the savannah-orders backend (FastAPI + SQLAlchemy).

The service layer (src/app/api/services) is embedded shallowly:
the database is an explicit state (lists of customer and order rows plus
autoincrement counters and a clock tick), store queries become list
operations, Python exceptions become an explicit exception datatype, and
each service function returns an `Except` result together with the state
after commit or rollback.  Exception dispatch is modelled per function,
mirroring the textual order of that function's `except` clauses; the key
point of fidelity is that `fastapi.HTTPException` is a subclass of
`Exception`, so an `HTTPException` raised inside a `try` block is caught
by a trailing `except Exception` handler.
-/

namespace SavannahOrders

/-- Order status enum from src/app/api/schemas/order.py (`OrderStatus`). -/
inductive OrderStatus where
  | PENDING
  | ACTIVE
  | CANCELLED
  | DELIVERED
  deriving DecidableEq, Repr

/-- Model of `fastapi.HTTPException`: a status code plus a detail message. -/
structure HTTPException where
  status_code : Nat
  detail : String
  deriving DecidableEq, Repr

/-- Python exceptions that the service layer can see.  `NoResultFound`,
`MultipleResultsFound` and `IntegrityError` are subclasses of
`SQLAlchemyError`; every constructor is a subclass of `Exception`. -/
inductive PyExc where
  | noResultFound
  | multipleResultsFound
  | integrityError (msg : String)
  | sqlalchemyError (msg : String)
  | validationError (msg : String)
  | attributeError (msg : String)
  | httpExc (e : HTTPException)
  deriving DecidableEq, Repr

/-- A line written through the logger (`logger.info` / `logger.error`). -/
inductive LogLine where
  | info (msg : String)
  | error (msg : String)
  deriving DecidableEq, Repr

/-- Gateway response dict, reduced to the field the code reads
(`response["SMSMessageData"]["Message"]`, sms_service.py). -/
structure SmsResponse where
  message : String
  deriving DecidableEq, Repr

/-- The external `sms_service.send` call, indexed by the message text: a
response on success, an opaque exception message on failure. -/
abbrev SmsGateway := String → Except String SmsResponse

instance {ε α : Type} [DecidableEq ε] [DecidableEq α] :
    DecidableEq (Except ε α) := fun a b =>
  match a, b with
  | .ok x, .ok y =>
    if h : x = y then .isTrue (congrArg Except.ok h)
    else .isFalse (fun hh => h (Except.ok.inj hh))
  | .error x, .error y =>
    if h : x = y then .isTrue (congrArg Except.error h)
    else .isFalse (fun hh => h (Except.error.inj hh))
  | .ok _, .error _ => .isFalse (fun hh => Except.noConfusion hh)
  | .error _, .ok _ => .isFalse (fun hh => Except.noConfusion hh)

/-- Embedding of `handle_error_helper` (src/app/api/utils/error_handler.py):
logs, then raises an `HTTPException` chosen by a `match` on the error code.
The match enumerates 400, 401, 403, 404 and 500; every other code falls to
the default case, which raises 500 with a prefixed message.  We return the
exception that the Python code raises. -/
def handle_error_helper (error_code : Nat) (message : String) : HTTPException :=
  match error_code with
  | 400 => ⟨400, message⟩
  | 401 => ⟨401, message⟩
  | 403 => ⟨403, message⟩
  | 404 => ⟨404, message⟩
  | 500 => ⟨500, message⟩
  | _ => ⟨500, "An unexpected error occurred: " ++ message⟩

/-- Pydantic constraint on `CustomerBase.name`: 1 to 100 characters. -/
def validNameB (s : String) : Bool :=
  Nat.ble 1 s.length && Nat.ble s.length 100

/-- The phone pattern from schemas/customer.py, regex `^\+?[1-9]\d{9,14}$`:
an optional leading plus sign, a first digit in 1..9, then 9 to 14 more
digits. -/
def phonePatternB (s : String) : Bool :=
  match s.data with
  | [] => false
  | ch :: rest =>
    match (if ch == '+' then rest else ch :: rest) with
    | [] => false
    | d :: ds =>
      d.isDigit && !(d == '0') && ds.all Char.isDigit
        && Nat.ble 9 ds.length && Nat.ble ds.length 14

/-- Pydantic constraint on `CustomerBase.phone_number`: length 10 to 15 and
the phone pattern. -/
def validPhoneB (s : String) : Bool :=
  Nat.ble 10 s.length && Nat.ble s.length 15 && phonePatternB s

/-- Pydantic constraint on `OrderBase.item`: 1 to 100 characters. -/
def validItemB (s : String) : Bool :=
  Nat.ble 1 s.length && Nat.ble s.length 100

/-- Row of the `customers` table (src/app/api/models/customer.py) as held
by the ORM object: id, name, user_id (the identity subject reference),
code, phone_number and the two timestamps.  Timestamps are clock ticks.
The name and phone attributes are `Option` so that a Python-level
`setattr(obj, field, None)` is representable; rows written by the insert
path always carry `some`. -/
structure DBCustomer where
  id : Nat
  name : Option String
  user_id : String
  code : String
  phone_number : Option String
  created_at : Nat
  updated_at : Nat
  deriving DecidableEq, Repr

/-- Row of the `orders` table (src/app/api/models/order.py): item, amount
(a float in the source, embedded as a rational), quantity, status with
column default `PENDING`, owning customer id and the two timestamps. -/
structure DBOrder where
  id : Nat
  item : String
  amount : Rat
  quantity : Nat
  status : OrderStatus
  customer_id : Nat
  created_at : Nat
  updated_at : Nat
  deriving DecidableEq, Repr

/-- The store: both tables, the autoincrement counters, and the current
clock tick used for server-side and Python-side timestamps. -/
structure DBState where
  customers : List DBCustomer
  orders : List DBOrder
  nextCustomerId : Nat
  nextOrderId : Nat
  now : Nat
  deriving DecidableEq, Repr

/-- Input schema `CustomerCreate` (src/app/api/schemas/customer.py): it
declares exactly two fields, `name` and `phone_number`.  In particular it
has no `code` field. -/
structure CustomerCreate where
  name : String
  phone_number : String
  deriving DecidableEq, Repr

/-- Partial-update schema `CustomerUpdate` (schemas/customer.py): both
fields are `str | None = None`.  The outer `Option` models pydantic
field-set tracking (`model_dump(exclude_unset := True)` keeps only the
fields the client actually supplied); the inner `Option` is the nullable
value itself. -/
structure CustomerUpdate where
  name : Option (Option String)
  phone_number : Option (Option String)
  deriving DecidableEq, Repr

/-- Output schema `Customer` (schemas/customer.py): id, name, phone, code
and timestamps; the identity subject reference (`user_id`) is not part of
the schema. -/
structure CustomerS where
  id : Nat
  name : String
  phone_number : String
  code : String
  created_at : Nat
  updated_at : Nat
  deriving DecidableEq, Repr

/-- Input schema `OrderCreate` (schemas/order.py): item (1..100 chars),
amount (> 0), quantity (int > 0, default 1), customer_id (> 0). -/
structure OrderCreate where
  item : String
  amount : Rat
  quantity : Nat
  customer_id : Nat
  deriving DecidableEq, Repr

/-- Output schema `Order` (schemas/order.py). -/
structure OrderS where
  id : Nat
  item : String
  amount : Rat
  quantity : Nat
  customer_id : Nat
  status : OrderStatus
  created_at : Nat
  updated_at : Nat
  deriving DecidableEq, Repr

/-- The validation constraints of `OrderCreate`, as enforced by pydantic
before a request reaches the service layer. -/
def ValidOrderCreate (oc : OrderCreate) : Prop :=
  validItemB oc.item = true ∧ 0 < oc.amount ∧ 0 < oc.quantity ∧ 0 < oc.customer_id

instance (oc : OrderCreate) : Decidable (ValidOrderCreate oc) := by
  unfold ValidOrderCreate; infer_instance

/-- Embedding of `Customer.model_validate(db_customer)`: pydantic reads the
attributes of the ORM object (`from_attributes`) and re-checks the schema
constraints; a `None` attribute or a constraint violation raises
`ValidationError`. -/
def Customer_model_validate (c : DBCustomer) : Except PyExc CustomerS :=
  match c.name, c.phone_number with
  | some n, some p =>
    if validNameB n && validPhoneB p then
      .ok ⟨c.id, n, p, c.code, c.created_at, c.updated_at⟩
    else
      .error (.validationError "customer fields failed schema constraints")
  | _, _ => .error (.validationError "customer fields failed schema constraints")

/-- Embedding of `Order.model_validate(db_order)`: re-checks the `OrderBase`
constraints (item length, amount > 0, quantity > 0, customer_id > 0). -/
def Order_model_validate (o : DBOrder) : Except PyExc OrderS :=
  if validItemB o.item && decide (0 < o.amount)
      && Nat.blt 0 o.quantity && Nat.blt 0 o.customer_id then
    .ok ⟨o.id, o.item, o.amount, o.quantity, o.customer_id, o.status,
      o.created_at, o.updated_at⟩
  else
    .error (.validationError "order fields failed schema constraints")

/-- Embedding of `_get_customer_by_id` (src/app/api/utils/customer.py):
`SELECT ... WHERE id == customer_id` followed by `scalar_one_or_none()`.
When no row matches, `handle_error_helper(404, ...)` raises an
`HTTPException`; when more than one row matches, `scalar_one_or_none`
raises `MultipleResultsFound`. -/
def _get_customer_by_id (db : DBState) (customer_id : Nat) :
    Except PyExc DBCustomer :=
  match db.customers.filter (fun c => c.id == customer_id) with
  | [] => .error (.httpExc (handle_error_helper 404
      ("Customer with id: " ++ toString customer_id ++ " not found!")))
  | [c] => .ok c
  | _ => .error .multipleResultsFound

/-- Embedding of `_get_order_by_id` (src/app/api/utils/order.py):
`SELECT ... WHERE id == order_id`, then `.scalars().first()`; a missing row
makes `handle_error_helper(404, ...)` raise an `HTTPException`. -/
def _get_order_by_id (db : DBState) (order_id : Nat) : Except PyExc DBOrder :=
  match (db.orders.filter (fun o => o.id == order_id)).head? with
  | some o => .ok o
  | none => .error (.httpExc (handle_error_helper 404
      ("Order with id: " ++ toString order_id ++ " not found!")))

/-- Attribute access `customer.code` in `insert_customer`
(services/customer_service.py line 47).  `CustomerCreate` declares no
`code` field, and a pydantic model raises `AttributeError` when an
undefined attribute is read. -/
def customerCreate_code (_c : CustomerCreate) : Except PyExc String :=
  .error (.attributeError "CustomerCreate object has no attribute code")

/-- The except-chain of `insert_customer` (services/customer_service.py),
in source order: `ValidationError` then `IntegrityError` then
`SQLAlchemyError` then `Exception`.  `NoResultFound` and
`MultipleResultsFound` are `SQLAlchemyError` subclasses and land in the
third clause; everything else, `AttributeError` included, lands in the
last one. -/
def insert_customer_handlers : PyExc → HTTPException
  | .validationError m => ⟨400, "Validation error: " ++ m⟩
  | .integrityError _ => ⟨400, "Customer with the same user_id already exists."⟩
  | .noResultFound => ⟨500, "Internal server error"⟩
  | .multipleResultsFound => ⟨500, "Internal server error"⟩
  | .sqlalchemyError _ => ⟨500, "Internal server error"⟩
  | _ => ⟨500, "Internal server error"⟩

/-- Embedding of `insert_customer` (services/customer_service.py): builds
the ORM object from `customer.name`, `customer.phone_number`,
`customer.code` and the given `user_id`, flushes (the store raises
`IntegrityError` on a `user_id` uniqueness violation), commits, refreshes
and returns the validated schema object.  On any exception the transaction
is rolled back (state unchanged) and the matching handler raises.  Note
the `customer.code` read precedes everything: it is part of constructing
the `DBCustomer(...)` object. -/
def insert_customer (db : DBState) (customer : CustomerCreate)
    (user_id : String) : Except HTTPException CustomerS × DBState :=
  match customerCreate_code customer with
  | .error e => (.error (insert_customer_handlers e), db)
  | .ok code =>
    if db.customers.any (fun c => c.user_id == user_id) then
      (.error (insert_customer_handlers
        (.integrityError "UNIQUE constraint failed: customers.user_id")), db)
    else
      let row : DBCustomer :=
        ⟨db.nextCustomerId, some customer.name, user_id, code,
          some customer.phone_number, db.now, db.now⟩
      let db2 : DBState :=
        { db with customers := db.customers ++ [row],
                  nextCustomerId := db.nextCustomerId + 1 }
      match Customer_model_validate row with
      | .ok s => (.ok s, db2)
      | .error e => (.error (insert_customer_handlers e), db2)

/-- Embedding of `update_customer_helper` (src/app/api/utils/customer.py,
the revision imported by customer_service): iterates
`customer_update.model_dump(exclude_unset=True)` in field declaration
order (name, then phone_number) and `setattr`s each present field onto the
ORM object.  `setattr` on these plain attributes cannot raise, so the
except branch of the helper is dead; no other attribute is touched. -/
def update_customer_helper (db_user : DBCustomer)
    (customer_update : CustomerUpdate) : DBCustomer :=
  let u1 :=
    match customer_update.name with
    | some v => { db_user with name := v }
    | none => db_user
  match customer_update.phone_number with
  | some v => { u1 with phone_number := v }
  | none => u1

/-- The SMS text built in `send_sms` (services/sms_service.py): greeting
with the customer name, the quantity and item, and the total
`order.amount * order.quantity` (Python renders it with two decimals; the
rendering of the rational is abstracted by `toString`). -/
def sms_message (order : OrderCreate) (customer : CustomerS) : String :=
  "Hi " ++ customer.name ++ "! Your order of " ++ toString order.quantity
    ++ " x " ++ order.item ++ " has been placed. Total: $"
    ++ toString (order.amount * (order.quantity : Rat))

/-- Embedding of `send_sms` (services/sms_service.py): calls the gateway
with the message, the recipient list and the sender id, logging the
response on success.  The `except Exception` clause catches any gateway
failure, logs it and discards it, so the function can never end in an
exception: the `Except` is always `.ok` with the produced log line. -/
def send_sms (gateway : SmsGateway) (order : OrderCreate)
    (customer : CustomerS) : Except PyExc LogLine :=
  match gateway (sms_message order customer) with
  | .ok response => .ok (.info ("SMS sent successfully: " ++ response.message))
  | .error e => .ok (.error ("Unexpected error sending SMS to "
      ++ customer.phone_number ++ ": " ++ e))

/-- The except-chain of `insert_order` (services/order_service.py), in
source order: `NoResultFound` gives 404, `ValidationError` gives 400,
`SQLAlchemyError` (which covers `IntegrityError` and
`MultipleResultsFound`) gives 500, and the final `except Exception` —
which also catches the `HTTPException` raised by `_get_customer_by_id` —
gives 500 with the generic message. -/
def insert_order_handlers (customer_id : Nat) : PyExc → HTTPException
  | .noResultFound =>
      ⟨404, "Customer with ID " ++ toString customer_id ++ " not found"⟩
  | .validationError m => ⟨400, "Validation error: " ++ m⟩
  | .integrityError _ => ⟨500, "An error occurred while creating the order"⟩
  | .multipleResultsFound => ⟨500, "An error occurred while creating the order"⟩
  | .sqlalchemyError _ => ⟨500, "An error occurred while creating the order"⟩
  | _ => ⟨500, "An unexpected error occurred"⟩

/-- Result of `insert_order`: the returned value or raised exception, the
state after commit or rollback, and the outcome of the scheduled
notification task (`none` when the task was never scheduled).  The task
runs outside the request after the response; its only effect is a log. -/
structure InsertOrderResult where
  result : Except HTTPException OrderS
  db : DBState
  smsLog : Option (Except PyExc LogLine)
  deriving DecidableEq, Repr

/-- Embedding of `insert_order` (services/order_service.py): resolves the
customer through `_get_customer_by_id` and validates it into the schema,
then builds the `DBOrder` with `amount = order_create.amount *
order_create.quantity` and the column defaults (status `PENDING`, fresh
autoincrement id, server timestamps), commits, refreshes, schedules
`send_sms_task` as a background task, and returns the validated order.
On an exception before the commit the rollback leaves the state
unchanged; the dispatch of exceptions follows `insert_order_handlers`. -/
def insert_order (db : DBState) (order_create : OrderCreate)
    (gateway : SmsGateway) : InsertOrderResult :=
  match _get_customer_by_id db order_create.customer_id with
  | .error e =>
    ⟨.error (insert_order_handlers order_create.customer_id e), db, none⟩
  | .ok db_customer =>
    match Customer_model_validate db_customer with
    | .error e =>
      ⟨.error (insert_order_handlers order_create.customer_id e), db, none⟩
    | .ok customer =>
      let db_order : DBOrder :=
        ⟨db.nextOrderId, order_create.item,
          order_create.amount * (order_create.quantity : Rat),
          order_create.quantity, .PENDING, customer.id, db.now, db.now⟩
      let db2 : DBState :=
        { db with orders := db.orders ++ [db_order],
                  nextOrderId := db.nextOrderId + 1 }
      let log := send_sms gateway order_create customer
      match Order_model_validate db_order with
      | .ok s => ⟨.ok s, db2, some log⟩
      | .error e =>
        ⟨.error (insert_order_handlers order_create.customer_id e), db2,
          some log⟩

/-- The except-chain of `get_order_by_id` (services/order_service.py):
same shape as the insert chain, retrieval messages. -/
def get_order_handlers (order_id : Nat) : PyExc → HTTPException
  | .noResultFound =>
      ⟨404, "Order with ID " ++ toString order_id ++ " not found"⟩
  | .validationError m => ⟨400, "Validation error: " ++ m⟩
  | .integrityError _ => ⟨500, "An error occurred while retrieving the order"⟩
  | .multipleResultsFound =>
      ⟨500, "An error occurred while retrieving the order"⟩
  | .sqlalchemyError _ => ⟨500, "An error occurred while retrieving the order"⟩
  | _ => ⟨500, "An unexpected error occurred"⟩

/-- Embedding of `get_order_by_id` (services/order_service.py): fetch via
`_get_order_by_id`, validate into the schema; read-only. -/
def get_order_by_id (db : DBState) (order_id : Nat) :
    Except HTTPException OrderS :=
  match _get_order_by_id db order_id with
  | .error e => .error (get_order_handlers order_id e)
  | .ok o =>
    match Order_model_validate o with
    | .ok s => .ok s
    | .error e => .error (get_order_handlers order_id e)

/-- The except-chain of `update_order_by_id` (services/order_service.py). -/
def update_order_handlers (order_id : Nat) : PyExc → HTTPException
  | .noResultFound =>
      ⟨404, "Order with ID " ++ toString order_id ++ " not found"⟩
  | .validationError m => ⟨400, "Validation error: " ++ m⟩
  | .integrityError _ => ⟨500, "An error occurred while updating the order"⟩
  | .multipleResultsFound =>
      ⟨500, "An error occurred while updating the order"⟩
  | .sqlalchemyError _ => ⟨500, "An error occurred while updating the order"⟩
  | _ => ⟨500, "An unexpected error occurred"⟩

/-- Embedding of `update_order_by_id` (services/order_service.py): loads
the order via `_get_order_by_id`, assigns `db_order.status =
order_update` with no validation of the transition, calls `update_time`
(utils/common.py — sets `updated_at` to the current UTC time), commits,
refreshes and returns the validated order.  A validation failure on the
return value happens after the commit, so in that branch the mutation
persists. -/
def update_order_by_id (db : DBState) (order_id : Nat)
    (order_update : OrderStatus) : Except HTTPException OrderS × DBState :=
  match _get_order_by_id db order_id with
  | .error e => (.error (update_order_handlers order_id e), db)
  | .ok o =>
    let o2 : DBOrder := { o with status := order_update, updated_at := db.now }
    let db2 : DBState :=
      { db with orders := db.orders.map (fun x => if x.id == o.id then o2 else x) }
    match Order_model_validate o2 with
    | .ok s => (.ok s, db2)
    | .error e => (.error (update_order_handlers order_id e), db2)

/-- Output schema `CustomerOrders` (schemas/customer.py): the customer
fields plus the embedded list of orders. -/
structure CustomerOrdersS where
  customer : CustomerS
  orders : List OrderS
  deriving DecidableEq, Repr

/-- Insert one order into a list kept sorted by `created_at` in descending
order, keeping earlier-listed rows first on ties. -/
def insertByCreatedDesc (o : DBOrder) : List DBOrder → List DBOrder
  | [] => [o]
  | x :: xs =>
    if o.created_at ≤ x.created_at then x :: insertByCreatedDesc o xs
    else o :: x :: xs

/-- Sort by `created_at` descending: the embedding of the query clause
`.order_by(DBOrder.created_at.desc())`. -/
def sortByCreatedDesc : List DBOrder → List DBOrder
  | [] => []
  | x :: xs => insertByCreatedDesc x (sortByCreatedDesc xs)

/-- The except-chain of `get_customer_recent_orders`
(services/customer_service.py): `NoResultFound` gives 404,
`ValidationError` gives 400, `SQLAlchemyError` gives 500, and the final
`except Exception` — which also catches the `HTTPException` raised by
`_get_customer_by_id` — gives 500 with the generic message. -/
def recent_orders_handlers (customer_id : Nat) : PyExc → HTTPException
  | .noResultFound =>
      ⟨404, "Customer with ID " ++ toString customer_id ++ " not found"⟩
  | .validationError m => ⟨400, "Validation error: " ++ m⟩
  | .integrityError _ =>
      ⟨500, "An error occurred while retrieving recent orders"⟩
  | .multipleResultsFound =>
      ⟨500, "An error occurred while retrieving recent orders"⟩
  | .sqlalchemyError _ =>
      ⟨500, "An error occurred while retrieving recent orders"⟩
  | _ => ⟨500, "An unexpected error occurred"⟩

/-- Embedding of `get_customer_recent_orders`
(services/customer_service.py): fetches the customer via
`_get_customer_by_id`, then the orders of that customer ordered by
`created_at` descending and limited to `limit`, validates the customer
into `CustomerOrders` and each order into the `Order` schema, and embeds
the list.  Read-only: the state is never changed. -/
def get_customer_recent_orders (db : DBState) (customer_id : Nat)
    (limit : Nat) : Except HTTPException CustomerOrdersS :=
  match _get_customer_by_id db customer_id with
  | .error e => .error (recent_orders_handlers customer_id e)
  | .ok db_customer =>
    let customer_orders :=
      (sortByCreatedDesc
        (db.orders.filter (fun o => o.customer_id == customer_id))).take limit
    match Customer_model_validate db_customer with
    | .error e => .error (recent_orders_handlers customer_id e)
    | .ok c =>
      match customer_orders.mapM Order_model_validate with
      | .ok os => .ok ⟨c, os⟩
      | .error e => .error (recent_orders_handlers customer_id e)

/-- Zero-padded two-digit rendering used by `strftime`: for values below
100 (a month, a day, a year taken modulo 100) the format prints exactly
two digits. -/
def two_digit (n : Nat) : String :=
  String.mk [Nat.digitChar (n / 10 % 10), Nat.digitChar (n % 10)]

/-- Embedding of `today.strftime(%y%m%d)`: two digits of the year modulo
100, two of the month, two of the day. -/
def strftime_yymmdd (year month day : Nat) : String :=
  two_digit (year % 100) ++ two_digit month ++ two_digit day

/-- Python slicing `s[:n]`: the first `n` characters of the string, or the
whole string when it is shorter than `n`. -/
def str_slice_to (s : String) (n : Nat) : String :=
  ⟨s.data.take n⟩

/-- Embedding of `generate_cust_code` (src/app/api/utils/code_generator.py):
the first three characters of the customer id string (`customer_id[:3]`),
the date stamp, and the first eight characters of the uuid4 text
(`str(uuid.uuid4())[:8]`), joined by hyphens.  The generation-time date
and the random uuid4 string (36 characters in Python) are parameters of
the embedding. -/
def generate_cust_code (customer_id : String) (year month day : Nat)
    (uuid4 : String) : String :=
  str_slice_to customer_id 3 ++ "-" ++ strftime_yymmdd year month day ++ "-"
    ++ str_slice_to uuid4 8

/-! Concrete fixtures used by witnesses and counterexamples. -/

/-- An empty store. -/
def db_empty : DBState := ⟨[], [], 1, 1, 5⟩

/-- A stored customer row with valid name and phone. -/
def cust1 : DBCustomer :=
  ⟨1, some "John Doe", "u1", "JOH-250101-abcd", some "1234567890", 0, 0⟩

/-- A store holding exactly `cust1` and no orders. -/
def db_one : DBState := ⟨[cust1], [], 2, 1, 5⟩

/-- The schema view of `cust1`. -/
def cust1S : CustomerS :=
  ⟨1, "John Doe", "1234567890", "JOH-250101-abcd", 0, 0⟩

/-- The order request of the spec example: item Pen, unit amount 10,
quantity 3, customer 1. -/
def oc_pen : OrderCreate := ⟨"Pen", Rat.ofInt 10, 3, 1⟩

/-- A gateway whose send always raises. -/
def gw_down : SmsGateway := fun _ => .error "SMS Service Down"

/-! Support lemmas shared by several proofs. -/

theorem Order_model_validate_ok (o : DBOrder) (h1 : validItemB o.item = true)
    (h2 : 0 < o.amount) (h3 : 0 < o.quantity) (h4 : 0 < o.customer_id) :
    Order_model_validate o = .ok ⟨o.id, o.item, o.amount, o.quantity,
      o.customer_id, o.status, o.created_at, o.updated_at⟩ := by
  have hcond : (validItemB o.item && decide (0 < o.amount)
      && Nat.blt 0 o.quantity && Nat.blt 0 o.customer_id) = true := by
    simp [h1, h2, Nat.blt_eq, h3, h4]
  simp [Order_model_validate, hcond]

theorem Customer_model_validate_id (c : DBCustomer) (cs : CustomerS)
    (h : Customer_model_validate c = .ok cs) : cs.id = c.id := by
  unfold Customer_model_validate at h
  split at h
  · split at h
    · have e := Except.ok.inj h
      subst e
      rfl
    · exact absurd h (by simp)
  · exact absurd h (by simp)

theorem filter_eq_singleton_id (db : DBState) (cid : Nat) (c : DBCustomer)
    (h : db.customers.filter (fun x => x.id == cid) = [c]) : c.id = cid := by
  have hmem : c ∈ db.customers.filter (fun x => x.id == cid) := by
    rw [h]; exact List.mem_singleton.mpr rfl
  have := (List.mem_filter.mp hmem).2
  simpa using this

/-! Claim theorems. -/

/-- C4.  The claim says CreateCustomer followed by GetCustomer round-trips
name and phone and yields a non-empty generated code.  The code cannot do
this: `insert_customer` reads `customer.code`, but `CustomerCreate`
declares no `code` field, so every create call raises `AttributeError`,
which the final `except Exception` handler converts into HTTP 500; no
customer row is ever written.  (The repository's own tests patch
`generate_code` inside `customer_service`, showing the intended design.) -/
theorem insert_customer_always_internal_error (db : DBState)
    (cc : CustomerCreate) (uid : String) :
    insert_customer db cc uid = (.error ⟨500, "Internal server error"⟩, db) :=
  rfl

/-- C3 counterexample.  Creating a customer whose `user_id` (subject_ref)
is already taken fails with status 500, not with the Conflict kind 409,
and the customers table row count is unchanged. -/
theorem duplicate_subject_ref_gives_500_not_409 :
    (insert_customer db_one ⟨"Jane Roe", "1234567890"⟩ "u1").1
        = .error ⟨500, "Internal server error"⟩
      ∧ (500 : Nat) ≠ 409
      ∧ (insert_customer db_one ⟨"Jane Roe", "1234567890"⟩ "u1").2.customers.length
        = db_one.customers.length :=
  ⟨rfl, by decide, rfl⟩

/-- C3 amended.  For every CreateCustomer call whose subject_ref already
has a customer, the operation fails with HTTP 500 (Internal): the read of
the missing `code` attribute raises before the store uniqueness check can
run (and even that check's `IntegrityError` handler would answer 400, not
409).  The store state, hence the customers row count, is unchanged. -/
theorem duplicate_subject_ref_amended (db : DBState) (cc : CustomerCreate)
    (uid : String)
    (hdup : db.customers.any (fun c => c.user_id == uid) = true) :
    (insert_customer db cc uid).1 = .error ⟨500, "Internal server error"⟩
      ∧ (insert_customer db cc uid).2 = db :=
  ⟨rfl, rfl⟩

/-- C3 witness: the amended statement at the concrete duplicate call. -/
theorem duplicate_subject_ref_amended_witness :
    (insert_customer db_one ⟨"Mary Sue", "1234567890"⟩ "u1").1
        = .error ⟨500, "Internal server error"⟩
      ∧ (insert_customer db_one ⟨"Mary Sue", "1234567890"⟩ "u1").2 = db_one :=
  duplicate_subject_ref_amended db_one ⟨"Mary Sue", "1234567890"⟩ "u1"
    (by decide)

/-- C5 counterexample.  `handle_error_helper` has no 409 arm: the conflict
code falls into the default case and the raised exception carries status
500 with the prefixed message, so the helper does not map conflict to
409. -/
theorem handle_error_helper_409_counterexample :
    handle_error_helper 409 "Duplicate"
        = ⟨500, "An unexpected error occurred: Duplicate"⟩
      ∧ (500 : Nat) ≠ 409 :=
  ⟨rfl, by decide⟩

/-- C5 amended.  `fail(kind, message)` raises the HTTP status implied by
the kind for 400 validation, 401 unauthenticated, 403 forbidden, 404
not-found and 500 internal; every other code — 409 conflict included —
falls to the default arm, which raises 500 with the message prefixed by
"An unexpected error occurred". -/
theorem handle_error_helper_amended (m : String) :
    handle_error_helper 400 m = ⟨400, m⟩
      ∧ handle_error_helper 401 m = ⟨401, m⟩
      ∧ handle_error_helper 403 m = ⟨403, m⟩
      ∧ handle_error_helper 404 m = ⟨404, m⟩
      ∧ handle_error_helper 500 m = ⟨500, m⟩
      ∧ ∀ k, k ∉ ([400, 401, 403, 404, 500] : List Nat) →
          handle_error_helper k m
            = ⟨500, "An unexpected error occurred: " ++ m⟩ := by
  refine ⟨rfl, rfl, rfl, rfl, rfl, ?_⟩
  intro k hk
  unfold handle_error_helper
  split
  · simp at hk
  · simp at hk
  · simp at hk
  · simp at hk
  · simp at hk
  · rfl

/-- C5 witness: the amended statement applied at kind 409. -/
theorem handle_error_helper_amended_witness :
    handle_error_helper 409 "boom"
      = ⟨500, "An unexpected error occurred: boom"⟩ :=
  (handle_error_helper_amended "boom").2.2.2.2.2 409 (by decide)

/-- C1.  CreateOrder against a store with no matching customer: the
existence check runs first and no order row is ever written (the state,
and hence the order count, is unchanged and the notification is never
scheduled), but the surfaced error has status 500 with the generic
message, not 404: the `HTTPException(404)` raised inside
`_get_customer_by_id` is caught by the `except Exception` block of
`insert_order`, whose own `except NoResultFound` arm is dead code. -/
theorem insert_order_missing_customer_surfaces_500 :
    insert_order db_empty oc_pen gw_down
        = ⟨.error ⟨500, "An unexpected error occurred"⟩, db_empty, none⟩
      ∧ (insert_order db_empty oc_pen gw_down).db.orders.length
        = db_empty.orders.length :=
  ⟨rfl, rfl⟩

/-- C6.  UpdateOrderStatus on a missing order id: the `HTTPException(404)`
raised inside `_get_order_by_id` is caught by the `except Exception`
block of `update_order_by_id`, which surfaces status 500 with the generic
message instead of the 404 the claim (and the dead `except NoResultFound`
arm) expect; the store is unchanged. -/
theorem update_order_missing_order_surfaces_500 :
    update_order_by_id db_empty 1 .DELIVERED
      = (.error ⟨500, "An unexpected error occurred"⟩, db_empty) :=
  rfl

/-- C8.  RecentOrders for a nonexistent customer id: the
`HTTPException(404)` raised inside `_get_customer_by_id` is caught by the
`except Exception` block of `get_customer_recent_orders`, which surfaces
status 500 with the generic message instead of the 404 the claim
expects. -/
theorem recent_orders_missing_customer_surfaces_500 :
    get_customer_recent_orders db_empty 7 2
      = .error ⟨500, "An unexpected error occurred"⟩ :=
  rfl

/-- Support: when the order exists, `update_order_by_id` succeeds for any
new status, overwrites the status unconditionally and refreshes
updated-at to the current clock. -/
theorem update_order_by_id_overwrites (db : DBState) (oid : Nat)
    (st : OrderStatus) (o : DBOrder)
    (h : (db.orders.filter (fun x => x.id == oid)).head? = some o)
    (h1 : validItemB o.item = true) (h2 : 0 < o.amount)
    (h3 : 0 < o.quantity) (h4 : 0 < o.customer_id) :
    (update_order_by_id db oid st).1
      = .ok ⟨o.id, o.item, o.amount, o.quantity, o.customer_id, st,
          o.created_at, db.now⟩ := by
  have hval := Order_model_validate_ok
    { o with status := st, updated_at := db.now } h1 h2 h3 h4
  unfold update_order_by_id _get_order_by_id
  rw [h]
  simp only [hval]

/-- C9.  `update_customer_helper` applies exactly the fields present in
the partial payload: an unset field is left untouched, a set field is
assigned the supplied value, and the attributes outside name and phone —
the id, the subject reference `user_id`, the generated `code` and the
creation timestamp — are never written. -/
theorem update_customer_helper_partial_update (c : DBCustomer)
    (cu : CustomerUpdate) :
    (update_customer_helper c cu).id = c.id
      ∧ (update_customer_helper c cu).user_id = c.user_id
      ∧ (update_customer_helper c cu).code = c.code
      ∧ (update_customer_helper c cu).created_at = c.created_at
      ∧ (cu.name = none → (update_customer_helper c cu).name = c.name)
      ∧ (∀ v, cu.name = some v → (update_customer_helper c cu).name = v)
      ∧ (cu.phone_number = none →
          (update_customer_helper c cu).phone_number = c.phone_number)
      ∧ (∀ v, cu.phone_number = some v →
          (update_customer_helper c cu).phone_number = v) := by
  cases hn : cu.name <;> cases hp : cu.phone_number <;>
    simp [update_customer_helper, hn, hp]

/-- C9 witness: a payload that sets only the name leaves phone, code and
subject reference untouched and applies the new name. -/
theorem update_customer_helper_partial_update_witness :
    (update_customer_helper cust1 ⟨some (some "Jane Roe"), none⟩).user_id
        = cust1.user_id
      ∧ (update_customer_helper cust1 ⟨some (some "Jane Roe"), none⟩).code
        = cust1.code
      ∧ (update_customer_helper cust1 ⟨some (some "Jane Roe"), none⟩).name
        = some "Jane Roe"
      ∧ (update_customer_helper cust1 ⟨some (some "Jane Roe"), none⟩).phone_number
        = cust1.phone_number := by
  have h := update_customer_helper_partial_update cust1
    ⟨some (some "Jane Roe"), none⟩
  exact ⟨h.2.1, h.2.2.1, h.2.2.2.2.2.1 (some "Jane Roe") rfl,
    h.2.2.2.2.2.2.1 rfl⟩

/-- C10.  `generate_cust_code` produces the first three characters of the
seed (the whole seed when it is shorter than three characters), a
six-character date stamp, and an eight-character suffix cut from the
uuid4 text, joined by hyphens; it has no failure case. -/
theorem generate_cust_code_spec (seed uuid4 : String) (year month day : Nat)
    (hm : month < 100) (hd : day < 100) (hu : 8 ≤ uuid4.length) :
    generate_cust_code seed year month day uuid4
        = str_slice_to seed 3 ++ "-" ++ strftime_yymmdd year month day
          ++ "-" ++ str_slice_to uuid4 8
      ∧ (strftime_yymmdd year month day).length = 6
      ∧ (str_slice_to uuid4 8).length = 8
      ∧ (str_slice_to seed 3).length = min 3 seed.length
      ∧ (seed.length < 3 → str_slice_to seed 3 = seed) := by
  refine ⟨rfl, ?_, ?_, ?_, ?_⟩
  · simp [strftime_yymmdd, two_digit, String.length_append]
  · show (uuid4.data.take 8).length = 8
    rw [List.length_take]
    exact Nat.min_eq_left hu
  · show (seed.data.take 3).length = min 3 seed.length
    rw [List.length_take]
    rfl
  · intro hlt
    show (⟨seed.data.take 3⟩ : String) = seed
    rw [List.take_of_length_le (Nat.le_of_lt hlt)]

/-- C10 witness: the spec example of a one-character seed, a fixed date
and a concrete uuid4 string. -/
theorem generate_cust_code_spec_witness :
    generate_cust_code "1" 2025 2 3 "123e4567-e89b-12d3-a456-426614174000"
        = "1-250203-123e4567"
      ∧ ("1" : String).length < 3 := by
  have h := generate_cust_code_spec "1" "123e4567-e89b-12d3-a456-426614174000"
    2025 2 3 (by decide) (by decide) (by decide)
  exact ⟨h.1, by decide⟩

/-- C7.  CreateOrder for an existing (and schema-valid) customer with a
valid request persists an order whose amount is the unit amount times the
quantity and whose status is the column default Pending; the returned
order carries the same values. -/
theorem insert_order_amount_and_status (db : DBState) (oc : OrderCreate)
    (gw : SmsGateway) (c : DBCustomer) (cs : CustomerS)
    (hc : db.customers.filter (fun x => x.id == oc.customer_id) = [c])
    (hv : Customer_model_validate c = .ok cs)
    (hoc : ValidOrderCreate oc) :
    (insert_order db oc gw).result
        = .ok ⟨db.nextOrderId, oc.item, oc.amount * (oc.quantity : Rat),
            oc.quantity, c.id, .PENDING, db.now, db.now⟩
      ∧ (insert_order db oc gw).db.orders
        = db.orders ++ [⟨db.nextOrderId, oc.item,
            oc.amount * (oc.quantity : Rat), oc.quantity, .PENDING, c.id,
            db.now, db.now⟩] := by
  obtain ⟨h1, h2, h3, h4⟩ := hoc
  have hid : cs.id = c.id := Customer_model_validate_id c cs hv
  have hcid : c.id = oc.customer_id := filter_eq_singleton_id db _ c hc
  have hmul : 0 < oc.amount * (oc.quantity : Rat) :=
    mul_pos h2 (by exact_mod_cast h3)
  have hval := Order_model_validate_ok
    ⟨db.nextOrderId, oc.item, oc.amount * (oc.quantity : Rat), oc.quantity,
      .PENDING, c.id, db.now, db.now⟩ h1 hmul h3
    (by rw [hcid]; exact h4)
  unfold insert_order _get_customer_by_id
  rw [hc]
  simp only [hv, hid, hval]
  exact ⟨trivial, trivial⟩

/-- C7 witness: the spec example CreateOrder(item Pen, unit amount 10,
quantity 3) against the store holding customer 1 yields amount 30 and
status Pending. -/
theorem insert_order_amount_and_status_witness :
    (insert_order db_one oc_pen gw_down).result
        = .ok ⟨1, "Pen", Rat.ofInt 10 * ((3 : Nat) : Rat), 3, 1, .PENDING, 5, 5⟩
      ∧ Rat.ofInt 10 * ((3 : Nat) : Rat) = Rat.ofInt 30 := by
  have h := insert_order_amount_and_status db_one oc_pen gw_down cust1 cust1S
    rfl rfl (by decide)
  exact ⟨h.1, by norm_num [Rat.ofInt_eq_cast]⟩

/-- C2.  For a CreateOrder call on an existing (schema-valid) customer,
the returned result, the committed state and the retrievability of the
new order are the same expressions for every gateway, a failing gateway
included: the commit happens before the notification task is scheduled,
the task's only effect is a log, and `send_sms` always ends in `.ok`
(the gateway error is logged and discarded, never raised). -/
theorem insert_order_gateway_failure_harmless (db : DBState)
    (oc : OrderCreate) (gw : SmsGateway) (c : DBCustomer) (cs : CustomerS)
    (hc : db.customers.filter (fun x => x.id == oc.customer_id) = [c])
    (hv : Customer_model_validate c = .ok cs)
    (hoc : ValidOrderCreate oc)
    (hfresh : ∀ o ∈ db.orders, o.id ≠ db.nextOrderId) :
    (insert_order db oc gw).result
        = .ok ⟨db.nextOrderId, oc.item, oc.amount * (oc.quantity : Rat),
            oc.quantity, c.id, .PENDING, db.now, db.now⟩
      ∧ (insert_order db oc gw).db
        = ⟨db.customers, db.orders ++ [⟨db.nextOrderId, oc.item,
            oc.amount * (oc.quantity : Rat), oc.quantity, .PENDING, c.id,
            db.now, db.now⟩], db.nextCustomerId, db.nextOrderId + 1, db.now⟩
      ∧ get_order_by_id (insert_order db oc gw).db db.nextOrderId
        = .ok ⟨db.nextOrderId, oc.item, oc.amount * (oc.quantity : Rat),
            oc.quantity, c.id, .PENDING, db.now, db.now⟩
      ∧ (insert_order db oc gw).smsLog = some (send_sms gw oc cs)
      ∧ ∃ l, send_sms gw oc cs = .ok l := by
  obtain ⟨h1, h2, h3, h4⟩ := hoc
  have hid : cs.id = c.id := Customer_model_validate_id c cs hv
  have hcid : c.id = oc.customer_id := filter_eq_singleton_id db _ c hc
  have hmul : 0 < oc.amount * (oc.quantity : Rat) :=
    mul_pos h2 (by exact_mod_cast h3)
  have hval := Order_model_validate_ok
    ⟨db.nextOrderId, oc.item, oc.amount * (oc.quantity : Rat), oc.quantity,
      .PENDING, c.id, db.now, db.now⟩ h1 hmul h3
    (by rw [hcid]; exact h4)
  have hnil : db.orders.filter (fun o => o.id == db.nextOrderId) = [] :=
    List.filter_eq_nil_iff.mpr (fun o ho => by simpa using hfresh o ho)
  have hget : get_order_by_id
      ⟨db.customers, db.orders ++ [⟨db.nextOrderId, oc.item,
        oc.amount * (oc.quantity : Rat), oc.quantity, .PENDING, c.id,
        db.now, db.now⟩], db.nextCustomerId, db.nextOrderId + 1, db.now⟩
      db.nextOrderId
      = .ok ⟨db.nextOrderId, oc.item, oc.amount * (oc.quantity : Rat),
          oc.quantity, c.id, .PENDING, db.now, db.now⟩ := by
    unfold get_order_by_id _get_order_by_id
    simp [List.filter_append, hnil, hval]
  have hsms : ∃ l, send_sms gw oc cs = .ok l := by
    unfold send_sms
    cases gw (sms_message oc cs) with
    | ok r => exact ⟨.info ("SMS sent successfully: " ++ r.message), rfl⟩
    | error e => exact ⟨.error ("Unexpected error sending SMS to "
        ++ cs.phone_number ++ ": " ++ e), rfl⟩
  unfold insert_order _get_customer_by_id
  rw [hc]
  simp only [hv, hid, hval]
  exact ⟨trivial, trivial, hget, trivial, hsms⟩

/-- C2 witness: with the one-customer store and a gateway that raises,
the create succeeds, the order is retrievable from the committed state,
and the scheduled notification ends as a logged-and-discarded error. -/
theorem insert_order_gateway_failure_harmless_witness :
    (insert_order db_one oc_pen gw_down).result
        = .ok ⟨1, "Pen", Rat.ofInt 10 * ((3 : Nat) : Rat), 3, 1, .PENDING, 5, 5⟩
      ∧ get_order_by_id (insert_order db_one oc_pen gw_down).db 1
        = .ok ⟨1, "Pen", Rat.ofInt 10 * ((3 : Nat) : Rat), 3, 1, .PENDING, 5, 5⟩
      ∧ (insert_order db_one oc_pen gw_down).smsLog
        = some (.ok (.error
            "Unexpected error sending SMS to 1234567890: SMS Service Down")) := by
  have h := insert_order_gateway_failure_harmless db_one oc_pen gw_down
    cust1 cust1S rfl rfl (by decide)
    (by intro o ho; exact absurd ho (List.not_mem_nil o))
  exact ⟨h.1, h.2.2.1, by rw [h.2.2.2.1]; rfl⟩

end SavannahOrders
